import Mathlib

/-!
Shallow embedding of `peyetribe.py` (EyeTribe eye-tracker client) and proofs
about its protocol engine: connection handshake, pull/push mode state machine,
listener-side frame decoding, time-offset normalization, callback routing,
frame queue FIFO behaviour and error handling.

Numbers that the Python code handles as floats (seconds, coordinates, pupil
sizes) are modelled as rationals `ℚ`; JSON integer fields as `ℕ`/`ℤ`.
-/

namespace EyeTribe

/-- Formatting mode of a `Coord`: the Python constructor default `fmt="%d"`
(integer rendering) or `fmt="%.3f"` used for pupil-centre coordinates. -/
inductive Fmt where
  | int   -- "%d"
  | fix3  -- "%.3f"
deriving Repr, DecidableEq

/-- `EyeTribe.Frame.Coord.__init__`: an (x, y) position together with the
separator and format string it renders with. -/
structure Coord where
  x : ℚ
  y : ℚ
  ssep : String := ";"
  fmt : Fmt := .int
deriving Repr, DecidableEq

/-- `EyeTribe.Frame.Eye.__init__`: single-eye data. -/
structure Eye where
  raw : Coord
  avg : Coord
  psize : ℚ
  pcenter : Coord
  ssep : String := ";"
deriving Repr, DecidableEq

/-- The `(x, y)` sub-object of a wire frame (`json['raw']`, `json['avg']`,
`eye['raw']`, `eye['avg']`, `eye['pcenter']`). -/
structure WireCoord where
  x : ℚ
  y : ℚ
deriving Repr, DecidableEq

/-- The `lefteye` / `righteye` sub-object of a wire frame. -/
structure WireEye where
  raw : WireCoord
  avg : WireCoord
  psize : ℚ
  pcenter : WireCoord
deriving Repr, DecidableEq

/-- The `values.frame` object of a wire frame reply: `time` is in
milliseconds, `state` is the device state bitmask. -/
structure WireFrame where
  time : ℚ
  timestamp : ℤ
  fix : Bool
  state : ℕ
  raw : WireCoord
  avg : WireCoord
  lefteye : WireEye
  righteye : WireEye
deriving Repr, DecidableEq

/-- `EyeTribe.Frame.__init__` body, value level: `etime = time.time()` (the
wall clock at decode time, a parameter here), `time = json['time'] / 1000.0`,
the rest copied field by field; `pcenter` coordinates get `fmt="%.3f"`. -/
structure Frame where
  etime : ℚ
  time : ℚ
  timestamp : ℤ
  fix : Bool
  state : ℕ
  raw : Coord
  avg : Coord
  lefteye : Eye
  righteye : Eye
  ssep : String := ";"
deriving Repr, DecidableEq

/-- Decode one eye record as `Frame.__init__` does: raw/avg keep the default
`"%d"` format, the pupil centre is built with `fmt="%.3f"`. -/
def Eye.ofWire (e : WireEye) : Eye :=
  { raw := { x := e.raw.x, y := e.raw.y }
    avg := { x := e.avg.x, y := e.avg.y }
    psize := e.psize
    pcenter := { x := e.pcenter.x, y := e.pcenter.y, fmt := .fix3 } }

/-- The Frame Decoder: `EyeTribe.Frame.__init__` on a decoded JSON
dictionary, with the wall-clock reading `time.time()` passed in as `etime`. -/
def Frame.ofWire (etime : ℚ) (j : WireFrame) : Frame :=
  { etime := etime
    time := j.time / 1000
    timestamp := j.timestamp
    fix := j.fix
    state := j.state
    raw := { x := j.raw.x, y := j.raw.y }
    avg := { x := j.avg.x, y := j.avg.y }
    lefteye := Eye.ofWire j.lefteye
    righteye := Eye.ofWire j.righteye }

/-- The per-frame callback optionally registered by `pushmode`: receives a
frame, returns `True` to suppress queueing. -/
def Callback : Type := Frame → Bool

/-- The exceptions the client can raise, named by the lifecycle/protocol
situation each `raise` (or runtime error) corresponds to:
* `alreadyConnected`: "cannot connect an already connected socket" /
  "cannot (re)bind a connected socket; close it first";
* `notConnected`: "cannot close an already closed connection";
* `protocolError`: "connection failed, protocol error (sc)";
* `timeoutError`: "The pushmode connection failed with a timeout";
* `shutdownTimeout`: "... thread did not terminate as expected";
* `attributeError`: a Python `AttributeError` raised by attribute access on
  `None` (not an explicit `raise` in the source). -/
inductive PyErr where
  | alreadyConnected
  | notConnected
  | protocolError
  | timeoutError
  | shutdownTimeout
  | attributeError
deriving Repr, DecidableEq

/-- The mutable state of one `EyeTribe` client object.  `sockOpen` models
`self.sock is not None`; `timeout` the socket's receive timeout in seconds;
the thread handles `hbeater`/`listener` are not part of the value state. -/
structure ClientState where
  host : String
  port : ℕ
  sockOpen : Bool
  timeout : Option ℚ
  ispushmode : Bool
  hbinterval : ℚ
  pmcallback : Option Callback
  toffset : Option ℚ
  queue : List Frame
  ssep : String := ";"

/-- `EyeTribe.__init__(host='localhost', port=6555, ssep=';')`. -/
def ClientState.start (host : String := "localhost") (port : ℕ := 6555) : ClientState :=
  { host := host
    port := port
    sockOpen := false
    timeout := none
    ispushmode := false
    hbinterval := 0
    pmcallback := none
    toffset := none
    queue := [] }

/-- The JSON reply to `etm_get_init`: `statuscode` and
`values.heartbeatinterval` (milliseconds, converted via `int(...)`). -/
structure InitReply where
  statuscode : ℕ
  heartbeatinterval : ℕ
deriving Repr, DecidableEq

/-- A generic JSON reply of which only `statuscode` is inspected
(mode-switch replies). -/
structure Reply where
  statuscode : ℕ
deriving Repr, DecidableEq

/-- `EyeTribe.connect`: refuses when a socket is already owned; otherwise
opens the socket, sets a 30 s timeout, sends `etm_get_init` and reads one
reply; on `statuscode ≠ 200` raises a protocol error; otherwise stores
`hbinterval = int(heartbeatinterval) / 1000.0` and, when nonzero, tightens
the socket timeout to `hbinterval * 2`.  The state is returned together with
the error (if any), since a Python exception leaves `self` as mutated so far. -/
def connect (s : ClientState) (reply : InitReply) : ClientState × Option PyErr :=
  if s.sockOpen then (s, some .alreadyConnected)
  else
    let s1 := { s with sockOpen := true, timeout := some 30 }
    if reply.statuscode ≠ 200 then (s1, some .protocolError)
    else
      let hb : ℚ := (reply.heartbeatinterval : ℚ) / 1000
      let s2 := { s1 with hbinterval := hb }
      if hb ≠ 0 then ({ s2 with timeout := some (hb * 2) }, none)
      else (s2, none)

/-- `EyeTribe.bind(host, port)`: the source tests `not self.sock is None`,
i.e. it updates `host`/`port` when a socket IS currently owned, and raises
"cannot (re)bind a connected socket; close it first" when no socket is owned
(`self.sock is None`).  The guard is inverted with respect to both the
docstring ("(Re)binds a non-connected Eye Tribe object") and the message of
its own `raise`. -/
def bind (s : ClientState) (host : String) (port : ℕ) : ClientState × Option PyErr :=
  if s.sockOpen then ({ s with host := host, port := port }, none)
  else (s, some .alreadyConnected)

/-- `EyeTribe.close`: the source tests `not self.sock.close is None`.  When a
socket is owned, `self.sock.close` is a bound method and is never `None`, so
the socket is closed and `self.sock` reset.  When `self.sock` is `None`, the
attribute access `self.sock.close` itself raises `AttributeError` before the
guard can be decided, so the `raise Exception("cannot close an already closed
connection")` branch is unreachable. -/
def close (s : ClientState) : ClientState × Option PyErr :=
  if s.sockOpen then ({ s with sockOpen := false }, none)
  else (s, some .attributeError)

/-- `EyeTribe.pushmode(callback=None)`, synchronous part: no-op when already
in push mode; otherwise sets `self.ispushmode = True`, records the callback
when one is given, sends `etm_set_push` and reads the single reply; raises a
protocol error on `statuscode ≠ 200`.  (On success the heartbeat and listener
threads are then started; thread handles are outside the value state.)
The state is returned together with the error: a Python exception leaves
`self` as mutated so far. -/
def pushmode (s : ClientState) (callback : Option Callback) (reply : Reply) :
    ClientState × Option PyErr :=
  if s.ispushmode then (s, none)
  else
    let s1 := { s with ispushmode := true }
    let s2 := match callback with
      | some c => { s1 with pmcallback := some c }
      | none => s1
    if reply.statuscode ≠ 200 then (s2, some .protocolError)
    else (s2, none)

/-- One Python 3 attribute assignment `self.a = v` on an instance of a class
whose class dictionary maps `a` to a `property` whose setter body is again
`self.a = val`.  Under Python 3 (new-style classes) the assignment dispatches
to the data descriptor's setter, whose body performs the very same dispatched
assignment, so every step re-enters the setter with one less unit of
recursion budget and no step ever stores a value.  This is the situation of
every attribute of `Coord` (`x`, `y`), `Eye` (`raw`, `avg`, `psize`,
`pcenter`) and `Frame` (`etime`, `time`, `timestamp`, `fix`, `state`, `avg`,
`lefteye`, `righteye`).  `none` models the `RecursionError` raised when the
budget (CPython's recursion limit) is exhausted. -/
def propertySelfSet : ℕ → Option Unit
  | 0 => none
  | fuel + 1 => propertySelfSet fuel

/-- The matching attribute read `self.a` through a property whose getter body
is `return self.a`: the same self-referential dispatch, for the accessors. -/
def propertySelfGet : ℕ → Option ℚ
  | 0 => none
  | fuel + 1 => propertySelfGet fuel

/-- `EyeTribe.Frame(json)` under Python 3 semantics: the first statement of
`Frame.__init__` is `self.etime = time.time()`, an assignment through the
self-referential `etime` property setter; only if that assignment completed
would the remaining assignments run and produce the decoded frame
`Frame.ofWire`. -/
def frameNewPy3 (fuel : ℕ) (etime : ℚ) (j : WireFrame) : Option Frame :=
  (propertySelfSet fuel).bind (fun _ => some (Frame.ofWire etime j))

/-- A decoded JSON document as inspected by the listener: its `statuscode`,
its `category`, and — when `'values' in f and 'frame' in f['values']` — the
frame payload. -/
structure Doc where
  statuscode : ℕ
  category : String
  frame : Option WireFrame
deriving Repr, DecidableEq

/-- A frame-carrying tracker reply with success status. -/
def frameDoc (category : String) (w : WireFrame) : Doc :=
  { statuscode := 200, category := category, frame := some w }

/-- The frame the listener delivers (to the callback or the queue) for wire
payload `w` when the session time offset is `T`: the decoded frame with
`f.time -= self.toffset` applied. -/
def deliveredFrame (etime T : ℚ) (w : WireFrame) : Frame :=
  let f0 := Frame.ofWire etime w
  { f0 with time := f0.time - T }

/-- The body of the listener's per-document loop: bail out with the protocol
error on `statuscode ≠ 200` (clearing `self.ispushmode` first); for a
non-heartbeat document carrying `values.frame`, decode the frame, set the
time offset from it if unset, subtract the offset, consult the callback, and
enqueue unless the callback returned `True`; discard all other documents. -/
def processDoc (etime : ℚ) (s : ClientState) (d : Doc) : ClientState × Option PyErr :=
  if d.statuscode ≠ 200 then ({ s with ispushmode := false }, some .protocolError)
  else
    match d.frame with
    | some w =>
      if d.category ≠ "heartbeat" then
        let f0 := Frame.ofWire etime w
        let T := match s.toffset with
          | none => f0.time
          | some t => t
        let s1 := { s with toffset := some T }
        let f : Frame := { f0 with time := f0.time - T }
        let dontQueue := match s1.pmcallback with
          | some cb => cb f
          | none => false
        if dontQueue then (s1, none)
        else ({ s1 with queue := s1.queue ++ [f] }, none)
      else (s, none)
    | none => (s, none)

/-- The listener's inner `for js in ...` loop over the documents of one
chunk: documents are processed in order; a raised protocol error aborts the
rest. -/
def runListenerDocs (etime : ℚ) : ClientState → List Doc → ClientState × Option PyErr
  | s, [] => (s, none)
  | s, d :: ds =>
    match processDoc etime s d with
    | (s1, some e) => (s1, some e)
    | (s1, none) => runListenerDocs etime s1 ds

/-- Python `r.decode().split("\n")` on the received chunk: split on every
newline, keeping empty segments (they are filtered afterwards). -/
def splitNl : List Char → List (List Char)
  | [] => [[]]
  | c :: cs =>
    if c = '\n' then [] :: splitNl cs
    else
      match splitNl cs with
      | seg :: segs => (c :: seg) :: segs
      | [] => [[c]]

/-- The whitespace characters Python `str.strip()` removes. -/
def isPySpace (c : Char) : Bool :=
  c = ' ' || c = '\t' || c = '\n' || c = '\r' || c = '\x0b' || c = '\x0c'

/-- Python `js.strip()`. -/
def pyStrip (s : List Char) : List Char :=
  ((s.dropWhile isPySpace).reverse.dropWhile isPySpace).reverse

/-- The listener's skip test `js.strip() != ""`, negated. -/
def isBlank (seg : List Char) : Bool :=
  (pyStrip seg).isEmpty

/-- The documents the listener decodes out of one chunk: the newline-split
segments whose strip is nonempty, in receipt order. -/
def extractDocs (chunk : List Char) : List (List Char) :=
  (splitNl chunk).filter (fun seg => ! isBlank seg)

/-- One received chunk, fully processed by the listener; `json.loads` is the
externally-given `decode`. -/
def processChunk (decode : List Char → Doc) (etime : ℚ) (s : ClientState)
    (chunk : List Char) : ClientState × Option PyErr :=
  runListenerDocs etime s ((extractDocs chunk).map decode)

/-- The listener's `except socket.timeout` handler: if `self.ispushmode` is
still set the stall is unexpected — clear the flag and raise the timeout
error; otherwise the timeout is benign and control falls back to the `while`
test, which now fails. -/
def onTimeout (s : ClientState) : ClientState × Option PyErr :=
  if s.ispushmode then ({ s with ispushmode := false }, some .timeoutError)
  else (s, none)

/-- What one iteration of the listener loop can observe: a data chunk, a
receive timeout, or — interleaved from the main thread — `pullmode` clearing
`self.ispushmode` (the cooperative stop signal). -/
inductive LEvent where
  | chunk (data : List Char)
  | timeout
  | stopSignal

/-- The listener loop `while self.ispushmode:` over a schedule of observed
events; a raised error terminates it, as does a cleared flag at the loop
test. -/
def listenerRun (decode : List Char → Doc) (etime : ℚ) :
    ClientState → List LEvent → ClientState × Option PyErr
  | s, [] => (s, none)
  | s, e :: es =>
    if s.ispushmode then
      match e with
      | .stopSignal => listenerRun decode etime { s with ispushmode := false } es
      | .chunk data =>
        match processChunk decode etime s data with
        | (s1, some er) => (s1, some er)
        | (s1, none) => listenerRun decode etime s1 es
      | .timeout =>
        match onTimeout s with
        | (s1, some er) => (s1, some er)
        | (s1, none) => listenerRun decode etime s1 es
    else (s, none)

/-- `EyeTribe.pullmode`: when in push mode, clear the running flag, send
`etm_set_pull`, and join the listener (and, when `hbinterval != 0`, the
heartbeater) within `min(hbinterval*2, 10)`; a thread still alive raises the
shutdown error (leaving `toffset`/`pmcallback` as they were, since the raise
precedes the resets).  On the success path — and when already in pull mode —
`toffset` and `pmcallback` are reset.  `listenerExited` / `hbeaterExited`
say whether the respective thread terminated within the join bound. -/
def pullmode (s : ClientState) (listenerExited hbeaterExited : Bool) :
    ClientState × Option PyErr :=
  if s.ispushmode then
    let s1 := { s with ispushmode := false }
    if ! listenerExited then (s1, some .shutdownTimeout)
    else if s.hbinterval ≠ 0 ∧ hbeaterExited = false then (s1, some .shutdownTimeout)
    else ({ s1 with toffset := none, pmcallback := none }, none)
  else ({ s with toffset := none, pmcallback := none }, none)

/-- `EyeTribe.next` in push mode: `self.queue.get(block)` returns the head
of the FIFO; on an empty queue this models the non-blocking read (`q.Empty`
caught, `None` returned). -/
def nextPush (s : ClientState) : ClientState × Option Frame :=
  match s.queue with
  | [] => (s, none)
  | f :: rest => ({ s with queue := rest }, some f)

/-- `n` successive push-mode `next()` calls, collecting the frames delivered,
stopping at the first empty answer. -/
def dequeueSeq : ClientState → ℕ → List Frame
  | _, 0 => []
  | s, n + 1 =>
    match nextPush s with
    | (_, none) => []
    | (s1, some f) => f :: dequeueSeq s1 n

/-- Python `"%d" % q` on a number: conversion to `int`, truncation toward
zero. -/
def truncQ (q : ℚ) : ℤ :=
  if 0 ≤ q then ⌊q⌋ else ⌈q⌉

/-- Rounding to the nearest integer, ties to even — the rounding of Python's
fixed-point `%` formatting. -/
def roundHalfEven (q : ℚ) : ℤ :=
  let f := ⌊q⌋
  let frac := q - f
  if frac < 1/2 then f
  else if 1/2 < frac then f + 1
  else if f % 2 = 0 then f else f + 1

/-- Python `"%.<d>f" % q`: the rational value the printed text denotes. -/
def fmtFix (d : ℕ) (q : ℚ) : ℚ :=
  (roundHalfEven (q * 10 ^ d) : ℚ) / 10 ^ d

/-- Information content of `Coord.__str__`: both coordinates as printed
(`"%d"` by default, `"%.3f"` for pupil centres). -/
def Coord.render (c : Coord) : ℚ × ℚ :=
  match c.fmt with
  | .int => ((truncQ c.x : ℚ), (truncQ c.y : ℚ))
  | .fix3 => (fmtFix 3 c.x, fmtFix 3 c.y)

/-- Information content of `Eye.__str__`: raw and averaged coordinates, the
pupil size as printed by `"%.1f"`, and the pupil centre. -/
structure RenderedEye where
  raw : ℚ × ℚ
  avg : ℚ × ℚ
  psize : ℚ
  pcenter : ℚ × ℚ
deriving Repr, DecidableEq

def Eye.render (e : Eye) : RenderedEye :=
  { raw := e.raw.render
    avg := e.avg.render
    psize := fmtFix 1 e.psize
    pcenter := e.pcenter.render }

/-- The five state characters `Frame.__str__` prints: `'L'` for
`state & 0x10`, `'F'` for `0x08`, `'P'` for `0x04`, `'E'` for `0x02`, `'G'`
for `0x01` (a `'.'` otherwise). -/
structure StateChars where
  l : Bool
  f : Bool
  p : Bool
  e : Bool
  g : Bool
deriving Repr, DecidableEq

def renderState (st : ℕ) : StateChars :=
  { l := decide (st.land 16 ≠ 0)
    f := decide (st.land 8 ≠ 0)
    p := decide (st.land 4 ≠ 0)
    e := decide (st.land 2 ≠ 0)
    g := decide (st.land 1 ≠ 0) }

/-- Reading the 5-bit mask back off the printed state characters. -/
def StateChars.toMask (c : StateChars) : ℕ :=
  (if c.l then 16 else 0) + (if c.f then 8 else 0) + (if c.p then 4 else 0) +
    (if c.e then 2 else 0) + (if c.g then 1 else 0)

/-- Information content of `Frame.__str__`: wall clock and device time as
printed by `"%014.3f"`/`"%07.3f"` (padding loses nothing), the timestamp
(printed verbatim by `"%s"`), the fixation character `'F'`/`'N'`, the state
characters, and the rendered coordinates and eye records. -/
structure RenderedFrame where
  etime : ℚ
  time : ℚ
  timestamp : ℤ
  fix : Bool
  state : StateChars
  raw : ℚ × ℚ
  avg : ℚ × ℚ
  lefteye : RenderedEye
  righteye : RenderedEye
deriving Repr, DecidableEq

def Frame.render (fr : Frame) : RenderedFrame :=
  { etime := fmtFix 3 fr.etime
    time := fmtFix 3 fr.time
    timestamp := fr.timestamp
    fix := fr.fix
    state := renderState fr.state
    raw := fr.raw.render
    avg := fr.avg.render
    lefteye := fr.lefteye.render
    righteye := fr.righteye.render }

/-- `q` is exactly representable with `d` decimal digits (so the fixed-point
rendering at `d` digits is lossless on it). -/
abbrev HasDecimals (d : ℕ) (q : ℚ) : Prop :=
  ∃ n : ℤ, q = (n : ℚ) / 10 ^ d

/-- The eye record a lossless rendering of wire eye `e` would reproduce. -/
def expectedRenderedEye (e : WireEye) : RenderedEye :=
  { raw := (e.raw.x, e.raw.y)
    avg := (e.avg.x, e.avg.y)
    psize := e.psize
    pcenter := (e.pcenter.x, e.pcenter.y) }

/-- Spec-side statement of the round-trip claim (from the spec's words):
decoding wire frame `w` and rendering the structured fields back reproduces
the source gaze coordinates, per-eye records, state mask and fixation flag. -/
abbrev RenderPreserves (etime : ℚ) (w : WireFrame) : Prop :=
  let r := (Frame.ofWire etime w).render
  r.raw = (w.raw.x, w.raw.y) ∧
  r.avg = (w.avg.x, w.avg.y) ∧
  r.lefteye = expectedRenderedEye w.lefteye ∧
  r.righteye = expectedRenderedEye w.righteye ∧
  r.state.toMask = w.state ∧
  r.fix = w.fix

/-- All numeric payload fields of `e` are exactly representable at the
precision its rendering uses. -/
abbrev WireEyeExact (e : WireEye) : Prop :=
  HasDecimals 0 e.raw.x ∧ HasDecimals 0 e.raw.y ∧
  HasDecimals 0 e.avg.x ∧ HasDecimals 0 e.avg.y ∧
  HasDecimals 1 e.psize ∧
  HasDecimals 3 e.pcenter.x ∧ HasDecimals 3 e.pcenter.y

/-- All payload fields of `w` survive the rendering precision: integral gaze
coordinates, one-decimal pupil sizes, three-decimal pupil centres, and a
state mask within its five bits. -/
abbrev WireFrameExact (w : WireFrame) : Prop :=
  HasDecimals 0 w.raw.x ∧ HasDecimals 0 w.raw.y ∧
  HasDecimals 0 w.avg.x ∧ HasDecimals 0 w.avg.y ∧
  WireEyeExact w.lefteye ∧ WireEyeExact w.righteye ∧ w.state < 32

/-- A small sample eye record: integral gaze coordinates, pupil size 2.3,
pupil centre (0.371, 0.421). -/
def sampleEye : WireEye :=
  { raw := ⟨401, 302⟩, avg := ⟨400, 300⟩, psize := 23/10,
    pcenter := ⟨371/1000, 421/1000⟩ }

/-- A sample wire frame at device time `t` milliseconds. -/
def sampleWire (t : ℚ) : WireFrame :=
  { time := t, timestamp := 101, fix := true, state := 7,
    raw := ⟨402, 301⟩, avg := ⟨400, 300⟩,
    lefteye := sampleEye, righteye := sampleEye }

/-- The sample wire frame with a fractional raw x gaze coordinate 3.5. -/
def sampleWireLossy : WireFrame :=
  { sampleWire 0 with raw := ⟨7/2, 301⟩ }

/-- The alternative host used in rebinding scenarios. -/
def altHost : String := "otherhost"

/-- The category of ordinary tracker replies. -/
def trackerCat : String := "tracker"

end EyeTribe

namespace EyeTribe

/-- Claim C5: for every valid handshake reply with status 200 on an
unconnected client, `connect()` succeeds, sets `hbinterval` to the reported
`heartbeatinterval` converted from milliseconds to seconds, and sets the
socket receive timeout to twice that interval, falling back to the 30 s
default when the reported interval is 0. -/
theorem connect_success_sets_hbinterval_and_timeout
    (s : ClientState) (reply : InitReply)
    (hsock : s.sockOpen = false) (hsc : reply.statuscode = 200) :
    (connect s reply).2 = none ∧
    (connect s reply).1.hbinterval = (reply.heartbeatinterval : ℚ) / 1000 ∧
    (connect s reply).1.timeout =
      some (if reply.heartbeatinterval ≠ 0
            then (reply.heartbeatinterval : ℚ) / 1000 * 2 else 30) := by
  have hb0 : ((reply.heartbeatinterval : ℚ) / 1000 = 0) ↔ reply.heartbeatinterval = 0 := by
    constructor
    · intro h
      have : (reply.heartbeatinterval : ℚ) = 0 := by
        field_simp at h
        exact_mod_cast h
      exact_mod_cast this
    · intro h
      simp [h]
  by_cases hz : reply.heartbeatinterval = 0
  · simp [connect, hsock, hsc, hz]
  · have : ¬ ((reply.heartbeatinterval : ℚ) / 1000 = 0) := fun h => hz (hb0.mp h)
    simp [connect, hsock, hsc, hz, this]

/-- Claim C1 (refuted by the code, Python 3 semantics): constructing a Frame
never terminates, and neither do the property accessors.  `Coord.x`,
`Frame.etime` and every sibling property shadow their own storage: the setter
body `self.x = val` re-dispatches to itself, so `Frame.__init__`'s first
statement `self.etime = time.time()` exhausts any recursion budget
(`RecursionError`), and, symmetrically, a getter `return self.x` never
returns.  Hence `Frame(json)` yields `none` for every budget, every wall
clock and every wire frame. -/
theorem frame_construction_diverges :
    (∀ fuel, propertySelfSet fuel = none) ∧
    (∀ fuel, propertySelfGet fuel = none) ∧
    (∀ fuel etime j, frameNewPy3 fuel etime j = none) := by
  have hset : ∀ fuel, propertySelfSet fuel = none := by
    intro fuel
    induction fuel with
    | zero => rfl
    | succ n ih => simpa [propertySelfSet] using ih
  have hget : ∀ fuel, propertySelfGet fuel = none := by
    intro fuel
    induction fuel with
    | zero => rfl
    | succ n ih => simpa [propertySelfGet] using ih
  exact ⟨hset, hget, fun fuel etime j => by simp [frameNewPy3, hset fuel]⟩

/-- Claim C2 counterexample: with a connected, pull-mode client and a
callback supplied, a mode-switch reply with status 404 makes `pushmode`
raise the protocol error, but the push-mode flag has been set to `True`
and the callback has been registered — the claimed "no state mutation
persists" is false. -/
theorem pushmode_non200_mutates_state :
    (pushmode { ClientState.start with sockOpen := true }
        (some (fun _ => true)) ⟨404⟩).2 = some .protocolError ∧
    (pushmode { ClientState.start with sockOpen := true }
        (some (fun _ => true)) ⟨404⟩).1.ispushmode = true ∧
    (pushmode { ClientState.start with sockOpen := true }
        (some (fun _ => true)) ⟨404⟩).1.pmcallback.isSome = true :=
  ⟨rfl, rfl, rfl⟩

/-- Claim C2 as amended: on a reply with status ≠ 200 during the switch to
push mode, the operation fails with the protocol error and the socket stays
open, the committed-work queue and the time offset are untouched — but the
push-mode flag has already been set and a supplied callback has already been
recorded, and those two mutations persist. -/
theorem pushmode_non200_fails_with_persisting_flag
    (s : ClientState) (cb : Option Callback) (reply : Reply)
    (hpush : s.ispushmode = false) (hsc : reply.statuscode ≠ 200) :
    (pushmode s cb reply).2 = some .protocolError ∧
    (pushmode s cb reply).1.sockOpen = s.sockOpen ∧
    (pushmode s cb reply).1.ispushmode = true ∧
    (pushmode s cb reply).1.pmcallback =
      (match cb with | some c => some c | none => s.pmcallback) ∧
    (pushmode s cb reply).1.toffset = s.toffset ∧
    (pushmode s cb reply).1.queue = s.queue := by
  cases cb <;> simp [pushmode, hpush, hsc]

/-- Claim C2 amended, witness: the concrete 404 mode-switch reply on a fresh
connected client with a callback. -/
theorem pushmode_non200_fails_with_persisting_flag_witness :
    (pushmode { ClientState.start with sockOpen := true }
        (some (fun _ => true)) ⟨404⟩).2 = some .protocolError ∧
    (pushmode { ClientState.start with sockOpen := true }
        (some (fun _ => true)) ⟨404⟩).1.sockOpen = true ∧
    (pushmode { ClientState.start with sockOpen := true }
        (some (fun _ => true)) ⟨404⟩).1.ispushmode = true := by
  have h := pushmode_non200_fails_with_persisting_flag
    { ClientState.start with sockOpen := true }
    (some (fun _ => true)) ⟨404⟩ rfl (by decide)
  exact ⟨h.1, h.2.1, h.2.2.1⟩

/-- Claim C3 (refuted by the code): `bind`'s guard is inverted.  On an
unconnected client (`self.sock is None`) it raises — with the
"cannot (re)bind a connected socket" message — and leaves host/port
unchanged; on a client that owns a socket it silently rebinds host and
port. -/
theorem bind_guard_inverted :
    (bind ClientState.start altHost 1234).2 = some .alreadyConnected ∧
    (bind ClientState.start altHost 1234).1.host = "localhost" ∧
    (bind ClientState.start altHost 1234).1.port = 6555 ∧
    (bind { ClientState.start with sockOpen := true } altHost 1234).2 = none ∧
    (bind { ClientState.start with sockOpen := true } altHost 1234).1.host = altHost ∧
    (bind { ClientState.start with sockOpen := true } altHost 1234).1.port = 1234 :=
  ⟨rfl, rfl, rfl, rfl, rfl, rfl⟩

/-- Claim C4 (partly refuted by the code): `close` on a client that owns a
socket does release it; but on an already-closed client the guard expression
`self.sock.close` is an attribute access on `None` and raises
`AttributeError` — the intended "cannot close an already closed connection"
branch is unreachable. -/
theorem close_releases_or_attribute_error :
    (close { ClientState.start with sockOpen := true }).1.sockOpen = false ∧
    (close { ClientState.start with sockOpen := true }).2 = none ∧
    close ClientState.start = (ClientState.start, some .attributeError) :=
  ⟨rfl, rfl, rfl⟩

/-- Claim C5, witness (Scenario A): from a fresh client, the handshake reply
`{"statuscode":200,"values":{"heartbeatinterval":20}}` yields `hbinterval`
0.02 s and timeout 0.04 s; the reply with interval 0 yields the 30 s default. -/
theorem connect_success_sets_hbinterval_and_timeout_witness :
    ((connect (ClientState.start) ⟨200, 20⟩).2 = none ∧
     (connect (ClientState.start) ⟨200, 20⟩).1.hbinterval = 1/50 ∧
     (connect (ClientState.start) ⟨200, 20⟩).1.timeout = some (1/25)) ∧
    (connect (ClientState.start) ⟨200, 0⟩).1.timeout = some 30 := by
  have h1 := connect_success_sets_hbinterval_and_timeout (ClientState.start) ⟨200, 20⟩ rfl rfl
  have h2 := connect_success_sets_hbinterval_and_timeout (ClientState.start) ⟨200, 0⟩ rfl rfl
  refine ⟨⟨h1.1, ?_, ?_⟩, ?_⟩
  · rw [h1.2.1]; norm_num
  · rw [h1.2.2]; norm_num
  · rw [h2.2.2]; norm_num

/-- Helper: from a state whose time offset is already `T` and with no
callback registered, running the listener over frame documents appends
exactly the offset-adjusted frames, in order, leaving offset, callback and
flag alone and raising no error. -/
theorem runListenerDocs_frames (etime T : ℚ) (cat : String) (hcat : cat ≠ "heartbeat") :
    ∀ (ws : List WireFrame) (s : ClientState),
      s.toffset = some T → s.pmcallback = none →
      (runListenerDocs etime s (ws.map (frameDoc cat))).2 = none ∧
      (runListenerDocs etime s (ws.map (frameDoc cat))).1.queue =
        s.queue ++ ws.map (deliveredFrame etime T) ∧
      (runListenerDocs etime s (ws.map (frameDoc cat))).1.toffset = some T ∧
      (runListenerDocs etime s (ws.map (frameDoc cat))).1.pmcallback = none ∧
      (runListenerDocs etime s (ws.map (frameDoc cat))).1.ispushmode = s.ispushmode := by
  intro ws
  induction ws with
  | nil =>
    intro s h1 h2
    exact ⟨rfl, by simp [runListenerDocs], h1, h2, rfl⟩
  | cons w ws ih =>
    intro s h1 h2
    have hstep : processDoc etime s (frameDoc cat w) =
        ({ s with toffset := some T,
                  queue := s.queue ++ [deliveredFrame etime T w] }, none) := by
      simp [processDoc, frameDoc, hcat, h1, h2, deliveredFrame]
    have hrun : runListenerDocs etime s ((w :: ws).map (frameDoc cat)) =
        runListenerDocs etime
          { s with toffset := some T, queue := s.queue ++ [deliveredFrame etime T w] }
          (ws.map (frameDoc cat)) := by
      simp only [List.map_cons, runListenerDocs, hstep]
    obtain ⟨e1, e2, e3, e4, e5⟩ :=
      ih { s with toffset := some T, queue := s.queue ++ [deliveredFrame etime T w] } rfl h2
    refine ⟨by rw [hrun]; exact e1, ?_, by rw [hrun]; exact e3,
            by rw [hrun]; exact e4, by rw [hrun]; exact e5⟩
    rw [hrun, e2]
    simp

/-- Claim C6: in a push-mode session started with the offset unset, the
first frame (device time T0 ms) sets the offset to T0 seconds and is
delivered with session-relative time 0; every later frame with device time
T1 is delivered with time T1−T0; the offset stays that value for the whole
run, and leaving push mode (`pullmode`, with the threads joining in time)
clears it. -/
theorem push_session_time_offset_law (s0 : ClientState) (etime : ℚ)
    (w0 : WireFrame) (ws : List WireFrame) (cat : String)
    (hcat : cat ≠ "heartbeat") (h1 : s0.toffset = none)
    (h2 : s0.pmcallback = none) (hq : s0.queue = []) :
    (runListenerDocs etime s0 ((w0 :: ws).map (frameDoc cat))).2 = none ∧
    (runListenerDocs etime s0 ((w0 :: ws).map (frameDoc cat))).1.toffset =
      some (w0.time / 1000) ∧
    (runListenerDocs etime s0 ((w0 :: ws).map (frameDoc cat))).1.queue.map Frame.time =
      0 :: ws.map (fun w => w.time / 1000 - w0.time / 1000) ∧
    (pullmode (runListenerDocs etime s0 ((w0 :: ws).map (frameDoc cat))).1 true true).1.toffset
      = none ∧
    (pullmode (runListenerDocs etime s0 ((w0 :: ws).map (frameDoc cat))).1 true true).2
      = none := by
  have hstep : processDoc etime s0 (frameDoc cat w0) =
      ({ s0 with toffset := some (w0.time / 1000),
                 queue := s0.queue ++ [deliveredFrame etime (w0.time / 1000) w0] }, none) := by
    simp [processDoc, frameDoc, hcat, h1, h2, deliveredFrame, Frame.ofWire]
  have hrun : runListenerDocs etime s0 ((w0 :: ws).map (frameDoc cat)) =
      runListenerDocs etime
        { s0 with toffset := some (w0.time / 1000),
                  queue := s0.queue ++ [deliveredFrame etime (w0.time / 1000) w0] }
        (ws.map (frameDoc cat)) := by
    simp only [List.map_cons, runListenerDocs, hstep]
  obtain ⟨e1, e2, e3, e4, e5⟩ :=
    runListenerDocs_frames etime (w0.time / 1000) cat hcat ws
      { s0 with toffset := some (w0.time / 1000),
                queue := s0.queue ++ [deliveredFrame etime (w0.time / 1000) w0] }
      rfl h2
  have hq2 : (runListenerDocs etime s0 ((w0 :: ws).map (frameDoc cat))).1.queue.map Frame.time =
      0 :: ws.map (fun w => w.time / 1000 - w0.time / 1000) := by
    rw [hrun, e2, hq]
    simp [deliveredFrame, Frame.ofWire]
  have htoff : (runListenerDocs etime s0 ((w0 :: ws).map (frameDoc cat))).1.toffset =
      some (w0.time / 1000) := by rw [hrun]; exact e3
  have hpull : ∀ r : ClientState,
      (pullmode r true true).1.toffset = none ∧ (pullmode r true true).2 = none := by
    intro r
    by_cases hp : r.ispushmode <;> simp [pullmode, hp]
  exact ⟨by rw [hrun]; exact e1, htoff, hq2, (hpull _).1, (hpull _).2⟩

/-- Claim C6, witness: two frames at device times 5000 ms and 5500 ms give
delivered times 0 and 0.5 s, the offset is 5 s, and `pullmode` clears it. -/
theorem push_session_time_offset_law_witness :
    (runListenerDocs 0 { ClientState.start with ispushmode := true }
      ([sampleWire 5000, sampleWire 5500].map (frameDoc trackerCat))).1.queue.map Frame.time
      = [0, 1/2] ∧
    (runListenerDocs 0 { ClientState.start with ispushmode := true }
      ([sampleWire 5000, sampleWire 5500].map (frameDoc trackerCat))).1.toffset = some 5 ∧
    (pullmode (runListenerDocs 0 { ClientState.start with ispushmode := true }
      ([sampleWire 5000, sampleWire 5500].map (frameDoc trackerCat))).1 true true).1.toffset
      = none := by
  obtain ⟨e1, e2, e3, e4, e5⟩ :=
    push_session_time_offset_law { ClientState.start with ispushmode := true } 0
      (sampleWire 5000) [sampleWire 5500] trackerCat (by decide) rfl rfl rfl
  refine ⟨?_, ?_, e4⟩
  · rw [e3]; norm_num [sampleWire]
  · rw [e2]; norm_num [sampleWire]

/-- Helper: `n` successive push-mode `next()` calls return exactly the first
`n` queued frames, in queue order. -/
theorem dequeueSeq_eq_take : ∀ (n : ℕ) (s : ClientState), dequeueSeq s n = s.queue.take n := by
  intro n
  induction n with
  | zero => intro s; rfl
  | succ n ih =>
    intro s
    cases hq : s.queue with
    | nil => simp [dequeueSeq, nextPush, hq]
    | cons f rest => simp [dequeueSeq, nextPush, hq, ih]

/-- Claim C7: in push mode, for a decoded (non-heartbeat, frame-carrying)
document: when a registered callback returns `true` on the delivered frame,
nothing is enqueued and that frame is never observed through `next`; when
the callback returns `false` or none is registered, the frame is enqueued
and a full drain of the queue returns it exactly once. -/
theorem push_callback_routing (s : ClientState) (etime T : ℚ) (w : WireFrame)
    (cat : String) (hcat : cat ≠ "heartbeat") (hT : s.toffset = some T)
    (hnew : deliveredFrame etime T w ∉ s.queue) :
    (∀ cb : Callback, s.pmcallback = some cb → cb (deliveredFrame etime T w) = true →
      (processDoc etime s (frameDoc cat w)).1.queue = s.queue ∧
      ∀ n, deliveredFrame etime T w ∉ dequeueSeq (processDoc etime s (frameDoc cat w)).1 n) ∧
    ((s.pmcallback = none ∨
        ∃ cb : Callback, s.pmcallback = some cb ∧ cb (deliveredFrame etime T w) = false) →
      (dequeueSeq (processDoc etime s (frameDoc cat w)).1
          (processDoc etime s (frameDoc cat w)).1.queue.length).count (deliveredFrame etime T w)
        = 1) := by
  constructor
  · intro cb hcb htrue
    have htrue2 :
        cb { Frame.ofWire etime w with time := (Frame.ofWire etime w).time - T } = true := by
      simpa [deliveredFrame] using htrue
    have hstep : processDoc etime s (frameDoc cat w) = ({ s with toffset := some T }, none) := by
      simp [processDoc, frameDoc, hcat, hT, hcb, htrue2]
    refine ⟨by rw [hstep], ?_⟩
    intro n
    rw [hstep, dequeueSeq_eq_take]
    intro hmem
    exact hnew (List.take_subset _ _ hmem)
  · intro hyp
    have hstep : processDoc etime s (frameDoc cat w) =
        ({ s with toffset := some T,
                  queue := s.queue ++ [deliveredFrame etime T w] }, none) := by
      rcases hyp with hnone | ⟨cb, hcb, hfalse⟩
      · simp [processDoc, frameDoc, hcat, hT, hnone, deliveredFrame]
      · have hf2 :
            cb { Frame.ofWire etime w with time := (Frame.ofWire etime w).time - T } = false := by
          simpa [deliveredFrame] using hfalse
        simp [processDoc, frameDoc, hcat, hT, hcb, hf2, deliveredFrame]
    have h0 : s.queue.count (deliveredFrame etime T w) = 0 := List.count_eq_zero.mpr hnew
    rw [hstep, dequeueSeq_eq_take, List.take_length, List.count_append, h0]
    simp

/-- Claim C7, witness: with an always-`true` callback the sample frame never
shows up among the first five `next` results; with no callback, draining the
queue returns it exactly once. -/
theorem push_callback_routing_witness :
    deliveredFrame 0 0 (sampleWire 1000) ∉
      dequeueSeq (processDoc 0
        { ClientState.start with ispushmode := true, toffset := some 0,
                                 pmcallback := some (fun _ => true) }
        (frameDoc trackerCat (sampleWire 1000))).1 5 ∧
    (dequeueSeq (processDoc 0
        { ClientState.start with ispushmode := true, toffset := some 0 }
        (frameDoc trackerCat (sampleWire 1000))).1
      (processDoc 0 { ClientState.start with ispushmode := true, toffset := some 0 }
        (frameDoc trackerCat (sampleWire 1000))).1.queue.length).count
      (deliveredFrame 0 0 (sampleWire 1000)) = 1 := by
  have hA := push_callback_routing
    { ClientState.start with ispushmode := true, toffset := some 0,
                             pmcallback := some (fun _ => true) }
    0 0 (sampleWire 1000) trackerCat (by decide) rfl (by simp [ClientState.start])
  have hB := push_callback_routing
    { ClientState.start with ispushmode := true, toffset := some 0 }
    0 0 (sampleWire 1000) trackerCat (by decide) rfl (by simp [ClientState.start])
  exact ⟨(hA.1 (fun _ => true) rfl rfl).2 5, hB.2 (Or.inl rfl)⟩

/-- Helper: splitting at the first newline when the leading segment holds
none. -/
theorem splitNl_append (s1 rest : List Char) (h : '\n' ∉ s1) :
    splitNl (s1 ++ '\n' :: rest) = s1 :: splitNl rest := by
  induction s1 with
  | nil => simp [splitNl]
  | cons c cs ih =>
    rw [List.mem_cons] at h
    push_neg at h
    obtain ⟨h1, h2⟩ := h
    have hc : ¬ (c = '\n') := fun e => h1 e.symm
    simp [splitNl, hc, ih h2]

/-- Claim C8: the listener splits a received chunk on the newline delimiter
and skips blank segments, so a chunk holding two newline-joined documents
(with a trailing newline) yields exactly those two documents, decodes them
in receipt order, and enqueues the two frames in that order; and dequeueing
(`next` in push mode) drains any queue in strict FIFO order. -/
theorem chunk_split_and_fifo :
    (∀ (decode : List Char → Doc) (etime T : ℚ) (s : ClientState)
       (d1 d2 : List Char) (c1 c2 : String) (w1 w2 : WireFrame),
       '\n' ∉ d1 → '\n' ∉ d2 → isBlank d1 = false → isBlank d2 = false →
       decode d1 = frameDoc c1 w1 → decode d2 = frameDoc c2 w2 →
       c1 ≠ "heartbeat" → c2 ≠ "heartbeat" →
       s.toffset = some T → s.pmcallback = none →
       extractDocs (d1 ++ '\n' :: (d2 ++ ['\n'])) = [d1, d2] ∧
       (processChunk decode etime s (d1 ++ '\n' :: (d2 ++ ['\n']))).2 = none ∧
       (processChunk decode etime s (d1 ++ '\n' :: (d2 ++ ['\n']))).1.queue =
         s.queue ++ [deliveredFrame etime T w1, deliveredFrame etime T w2]) ∧
    (∀ s : ClientState, dequeueSeq s s.queue.length = s.queue) := by
  constructor
  · intro decode etime T s d1 d2 c1 c2 w1 w2 hn1 hn2 hb1 hb2 hd1 hd2 hc1 hc2 hT hcb
    have hsplit : splitNl (d1 ++ '\n' :: (d2 ++ ['\n'])) = [d1, d2, []] := by
      rw [splitNl_append d1 _ hn1, splitNl_append d2 _ hn2]
      rfl
    have hblank : isBlank ([] : List Char) = true := rfl
    have hex : extractDocs (d1 ++ '\n' :: (d2 ++ ['\n'])) = [d1, d2] := by
      simp [extractDocs, hsplit, hb1, hb2, hblank]
    have hdocs : (extractDocs (d1 ++ '\n' :: (d2 ++ ['\n']))).map decode =
        [frameDoc c1 w1, frameDoc c2 w2] := by
      rw [hex]
      simp [hd1, hd2]
    have hstep1 : processDoc etime s (frameDoc c1 w1) =
        ({ s with toffset := some T,
                  queue := s.queue ++ [deliveredFrame etime T w1] }, none) := by
      simp [processDoc, frameDoc, hc1, hT, hcb, deliveredFrame]
    have hstep2 : processDoc etime
        { s with toffset := some T, queue := s.queue ++ [deliveredFrame etime T w1] }
        (frameDoc c2 w2) =
        ({ s with toffset := some T,
                  queue := (s.queue ++ [deliveredFrame etime T w1]) ++
                    [deliveredFrame etime T w2] }, none) := by
      simp [processDoc, frameDoc, hc2, hcb, deliveredFrame]
    refine ⟨hex, ?_, ?_⟩
    · simp [processChunk, hdocs, runListenerDocs, hstep1, hstep2]
    · simp [processChunk, hdocs, runListenerDocs, hstep1, hstep2]
  · intro s
    rw [dequeueSeq_eq_take]
    exact List.take_length _

/-- Claim C8, witness: the chunk `"a\nb\n"` with a decoder sending segment
`"a"` to a frame at 1000 ms and any other segment to a frame at 2000 ms
yields those two frames enqueued in receipt order, and a two-frame queue is
drained in order. -/
theorem chunk_split_and_fifo_witness :
    extractDocs (['a'] ++ '\n' :: (['b'] ++ ['\n'])) = [['a'], ['b']] ∧
    (processChunk
        (fun seg => if seg = ['a'] then frameDoc trackerCat (sampleWire 1000)
                    else frameDoc trackerCat (sampleWire 2000))
        0 { ClientState.start with ispushmode := true, toffset := some 0 }
        (['a'] ++ '\n' :: (['b'] ++ ['\n']))).1.queue =
      [deliveredFrame 0 0 (sampleWire 1000), deliveredFrame 0 0 (sampleWire 2000)] ∧
    dequeueSeq { ClientState.start with
        queue := [deliveredFrame 0 0 (sampleWire 1000), deliveredFrame 0 0 (sampleWire 2000)] }
      2 = [deliveredFrame 0 0 (sampleWire 1000), deliveredFrame 0 0 (sampleWire 2000)] := by
  have h := chunk_split_and_fifo.1
    (fun seg => if seg = ['a'] then frameDoc trackerCat (sampleWire 1000)
                else frameDoc trackerCat (sampleWire 2000))
    0 0 { ClientState.start with ispushmode := true, toffset := some 0 }
    ['a'] ['b'] trackerCat trackerCat (sampleWire 1000) (sampleWire 2000)
    (by decide) (by decide) (by decide) (by decide)
    (by simp) (by simp) (by decide) (by decide) rfl rfl
  have hfifo := chunk_split_and_fifo.2
    { ClientState.start with
        queue := [deliveredFrame 0 0 (sampleWire 1000), deliveredFrame 0 0 (sampleWire 2000)] }
  refine ⟨h.1, ?_, hfifo⟩
  rw [h.2.2]
  rfl

/-- Claim C9: on a receive timeout, if the running flag `self.ispushmode` is
still set the listener clears it and raises the timeout error; if the flag
was already cleared the timeout raises nothing and the listener loop exits
normally for any remaining schedule; and `pullmode`, once the threads have
exited, returns without error. -/
theorem listener_timeout_discipline :
    (∀ s : ClientState, s.ispushmode = true →
       onTimeout s = ({ s with ispushmode := false }, some PyErr.timeoutError)) ∧
    (∀ s : ClientState, s.ispushmode = false →
       onTimeout s = (s, none) ∧
       ∀ (decode : List Char → Doc) (etime : ℚ) (evs : List LEvent),
         listenerRun decode etime s evs = (s, none)) ∧
    (∀ s : ClientState, s.ispushmode = true → (pullmode s true true).2 = none) := by
  refine ⟨?_, ?_, ?_⟩
  · intro s h
    simp [onTimeout, h]
  · intro s h
    refine ⟨by simp [onTimeout, h], ?_⟩
    intro decode etime evs
    cases evs with
    | nil => rfl
    | cons e es => simp [listenerRun, h]
  · intro s h
    simp [pullmode, h]

/-- Claim C9, witness: the concrete flag-set and flag-cleared states. -/
theorem listener_timeout_discipline_witness :
    (onTimeout { ClientState.start with ispushmode := true }).2 = some PyErr.timeoutError ∧
    (onTimeout { ClientState.start with ispushmode := true }).1.ispushmode = false ∧
    (onTimeout ClientState.start).2 = none ∧
    listenerRun (fun _ => frameDoc trackerCat (sampleWire 1000)) 0 ClientState.start
      [LEvent.timeout] = (ClientState.start, none) ∧
    (pullmode { ClientState.start with ispushmode := true } true true).2 = none := by
  have h1 := listener_timeout_discipline.1 { ClientState.start with ispushmode := true } rfl
  have h2 := listener_timeout_discipline.2.1 ClientState.start rfl
  have h3 := listener_timeout_discipline.2.2 { ClientState.start with ispushmode := true } rfl
  exact ⟨by rw [h1], by rw [h1], by rw [h2.1],
         h2.2 (fun _ => frameDoc trackerCat (sampleWire 1000)) 0 [LEvent.timeout], h3⟩

/-- Helper: rounding an integer (cast to ℚ) is the identity. -/
theorem roundHalfEven_intCast (n : ℤ) : roundHalfEven (n : ℚ) = n := by
  simp [roundHalfEven, Int.floor_intCast]

/-- Helper: fixed-point rendering at `d` digits is lossless on rationals
with at most `d` decimal digits. -/
theorem fmtFix_exact {d : ℕ} {q : ℚ} (h : HasDecimals d q) : fmtFix d q = q := by
  obtain ⟨n, rfl⟩ := h
  have hp : (10 : ℚ) ^ d ≠ 0 := by positivity
  have hm : (n : ℚ) / 10 ^ d * 10 ^ d = (n : ℚ) := by field_simp
  unfold fmtFix
  rw [hm, roundHalfEven_intCast]

/-- Helper: `"%d"` truncation is lossless on integral rationals. -/
theorem truncQ_int {q : ℚ} (h : HasDecimals 0 q) : (truncQ q : ℚ) = q := by
  obtain ⟨n, rfl⟩ := h
  have he : ((n : ℚ) / 10 ^ 0) = (n : ℚ) := by norm_num
  rw [he]
  unfold truncQ
  by_cases hq : (0 : ℚ) ≤ (n : ℚ)
  · rw [if_pos hq, Int.floor_intCast]
  · rw [if_neg hq, Int.ceil_intCast]

/-- Helper: an integer-formatted coordinate renders to itself when both
components are integral. -/
theorem coord_render_int {c : Coord} (hf : c.fmt = Fmt.int)
    (hx : HasDecimals 0 c.x) (hy : HasDecimals 0 c.y) : c.render = (c.x, c.y) := by
  unfold Coord.render
  rw [hf]
  simp [truncQ_int hx, truncQ_int hy]

/-- Helper: a `"%.3f"`-formatted coordinate renders to itself when both
components have at most three decimals. -/
theorem coord_render_fix3 {c : Coord} (hf : c.fmt = Fmt.fix3)
    (hx : HasDecimals 3 c.x) (hy : HasDecimals 3 c.y) : c.render = (c.x, c.y) := by
  unfold Coord.render
  rw [hf]
  simp [fmtFix_exact hx, fmtFix_exact hy]

/-- Helper: a decoded eye record renders losslessly when all its fields are
exactly representable at the used precisions. -/
theorem eye_render_exact (e : WireEye) (he : WireEyeExact e) :
    (Eye.ofWire e).render = expectedRenderedEye e := by
  obtain ⟨h1, h2, h3, h4, h5, h6, h7⟩ := he
  have hraw : (Eye.ofWire e).raw.render = (e.raw.x, e.raw.y) := coord_render_int rfl h1 h2
  have havg : (Eye.ofWire e).avg.render = (e.avg.x, e.avg.y) := coord_render_int rfl h3 h4
  have hpc : (Eye.ofWire e).pcenter.render = (e.pcenter.x, e.pcenter.y) :=
    coord_render_fix3 rfl h6 h7
  have h5b : HasDecimals 1 (Eye.ofWire e).psize := h5
  unfold Eye.render expectedRenderedEye
  rw [hraw, havg, hpc, fmtFix_exact h5b]
  rfl

/-- Helper: the five printed state characters determine any 5-bit mask. -/
theorem renderState_toMask_lt32 : ∀ st, st < 32 → (renderState st).toMask = st := by decide

/-- Claim C10 counterexample: for the wire frame whose raw x gaze coordinate
is 3.5, the `"%d"`-rendered raw coordinate is 3, so the rendering does not
reproduce every source field. -/
theorem render_roundtrip_lossy : ¬ RenderPreserves 0 sampleWireLossy := by
  intro h
  have hfl : ⌊(7 : ℚ)/2⌋ = 3 := by
    rw [Int.floor_eq_iff]
    norm_num
  have h2 : (truncQ ((7 : ℚ)/2) : ℚ) = (7 : ℚ)/2 := congrArg Prod.fst h.1
  have h3 : truncQ ((7 : ℚ)/2) = 3 := by
    unfold truncQ
    rw [if_pos (by norm_num : (0 : ℚ) ≤ 7/2), hfl]
  rw [h3] at h2
  norm_num at h2

/-- Claim C10 as amended: the rendering reproduces the fixation flag always,
the state mask whenever it fits its five bits, and the gaze coordinates,
per-eye coordinates, pupil sizes and pupil centres whenever they are exactly
representable at the precision the formats use (integral gaze coordinates,
one-decimal pupil sizes, three-decimal pupil centres). -/
theorem render_roundtrip_exact (etime : ℚ) (w : WireFrame) (hw : WireFrameExact w) :
    RenderPreserves etime w := by
  obtain ⟨h1, h2, h3, h4, hL, hR, hs⟩ := hw
  have hraw : ((Frame.ofWire etime w).raw).render =
      ((Frame.ofWire etime w).raw.x, (Frame.ofWire etime w).raw.y) :=
    coord_render_int rfl h1 h2
  have havg : ((Frame.ofWire etime w).avg).render =
      ((Frame.ofWire etime w).avg.x, (Frame.ofWire etime w).avg.y) :=
    coord_render_int rfl h3 h4
  refine ⟨?_, ?_, ?_, ?_, ?_, ?_⟩
  · exact hraw
  · exact havg
  · exact eye_render_exact w.lefteye hL
  · exact eye_render_exact w.righteye hR
  · exact renderState_toMask_lt32 w.state hs
  · rfl

/-- Claim C10 amended, witness: the sample frame (integral gaze coordinates,
pupil size 2.3, pupil centres at three decimals, state mask 7) renders back
to exactly its source fields. -/
theorem render_roundtrip_exact_witness :
    RenderPreserves 0 (sampleWire 1000) := by
  have hex : WireFrameExact (sampleWire 1000) := by
    refine ⟨⟨402, ?_⟩, ⟨301, ?_⟩, ⟨400, ?_⟩, ⟨300, ?_⟩,
            ⟨⟨401, ?_⟩, ⟨302, ?_⟩, ⟨400, ?_⟩, ⟨300, ?_⟩, ⟨23, ?_⟩, ⟨371, ?_⟩, ⟨421, ?_⟩⟩,
            ⟨⟨401, ?_⟩, ⟨302, ?_⟩, ⟨400, ?_⟩, ⟨300, ?_⟩, ⟨23, ?_⟩, ⟨371, ?_⟩, ⟨421, ?_⟩⟩,
            ?_⟩
    all_goals norm_num [sampleWire, sampleEye]
  exact render_roundtrip_exact 0 (sampleWire 1000) hex

end EyeTribe
